import Mathlib

/-!
Verification development for the Directs repository's mathematical core
(`src/math/accuracy.py`, `src/math/ensemble.py`, `src/math/forecast.py`,
`src/math/spline.py`).

Modelling conventions:
* A pandas `Series` is an association list from index labels to values;
  a missing (NaN) cell is simply an absent label, and a function that can
  return NaN returns an `Option`, with `none` standing for NaN.
* Python floats are idealised as `ℚ` where the code only uses field
  operations, and as `ℝ` where it uses `exp`, `log` or `sqrt`.
* Dates are integer day numbers; a date index label and an integer
  (RangeIndex) label are distinct labels, as in pandas.
-/

/-! ## Accuracy tracker (src/math/accuracy.py) -/

/-- A pandas Series over an integer-day index with rational values.
Only non-missing entries are stored. -/
abbrev QSeries := List (ℕ × ℚ)

/-- Label lookup in a series (first entry carrying the label). -/
def lookupLabel (i : ℕ) (s : QSeries) : Option ℚ :=
  (s.find? (fun p => p.1 == i)).map Prod.snd

/-- `pd.concat([p, a], axis=1).dropna()`: the rows whose label carries a
value in both series, ordered as in the first series. -/
def alignPairs (p a : QSeries) : List (ℕ × ℚ × ℚ) :=
  p.filterMap (fun x => (lookupLabel x.1 a).map (fun w => (x.1, x.2, w)))

/-- `np.mean` of a list of rationals. -/
def meanQ (l : List ℚ) : ℚ := l.sum / l.length

/-- `Series.diff().dropna()`: consecutive positional differences, each kept
under the label of the later entry; the first row (NaN) is dropped. -/
def seriesDiff : QSeries → QSeries
  | [] => []
  | [_] => []
  | x :: y :: rest => (y.1, y.2 - x.2) :: seriesDiff (y :: rest)

/-- `np.sign` on rationals. -/
def npSign (x : ℚ) : ℚ := if 0 < x then 1 else if x < 0 then -1 else 0

/-- `ForecastAccuracyTracker.calculate_mape`: align the two series, return
NaN (`none`) on an empty intersection, otherwise
`mean(|actual - pred| / actual) * 100`. -/
def calculate_mape (predictions actuals : QSeries) : Option ℚ :=
  let aligned := alignPairs predictions actuals
  if aligned.isEmpty then none
  else some (meanQ (aligned.map (fun x => |(x.2.2 - x.2.1) / x.2.2|)) * 100)

/-- `ForecastAccuracyTracker.calculate_rmse`: align, NaN on empty
intersection, otherwise `sqrt(mean((actual - pred)^2))`. -/
noncomputable def calculate_rmse (predictions actuals : QSeries) : Option ℝ :=
  let aligned := alignPairs predictions actuals
  if aligned.isEmpty then none
  else some (Real.sqrt ((meanQ (aligned.map (fun x => (x.2.2 - x.2.1) ^ 2)) : ℚ) : ℝ))

/-- `ForecastAccuracyTracker.calculate_bias`: align, NaN on empty
intersection, otherwise `mean(pred - actual)`. -/
def calculate_bias (predictions actuals : QSeries) : Option ℚ :=
  let aligned := alignPairs predictions actuals
  if aligned.isEmpty then none
  else some (meanQ (aligned.map (fun x => x.2.1 - x.2.2)))

/-- The aligned first differences used by `calculate_directional_accuracy`. -/
def dirAligned (predictions actuals : QSeries) : List (ℕ × ℚ × ℚ) :=
  alignPairs (seriesDiff predictions) (seriesDiff actuals)

/-- `ForecastAccuracyTracker.calculate_directional_accuracy`: NaN when the
aligned first differences are empty, otherwise the mean of the boolean
sign-match series times 100. -/
def calculate_directional_accuracy (predictions actuals : QSeries) : Option ℚ :=
  let aligned := dirAligned predictions actuals
  if aligned.isEmpty then none
  else some (((aligned.countP (fun x => npSign x.2.1 == npSign x.2.2) : ℚ) / aligned.length) * 100)

/-- `calculate_forecast_skill_score`: NaN when the naive MAPE is zero,
otherwise `1 - model_mape / naive_mape`. -/
def calculate_forecast_skill_score (model_mape naive_mape : ℚ) : Option ℚ :=
  if naive_mape = 0 then none else some (1 - model_mape / naive_mape)

/-! ## Ensemble weights (src/math/ensemble.py) -/

/-- A Python dict of component weights, as an association list. -/
abbrev WeightDict := List (String × ℚ)

/-- Sum of a weight dict's values. -/
def sumWeights (w : WeightDict) : ℚ := (w.map Prod.snd).sum

/-- `np.isclose(a, b)` with the default tolerances `rtol=1e-5`, `atol=1e-8`:
`|a - b| <= atol + rtol * |b|`. -/
def npIsClose (a b : ℚ) : Bool :=
  decide (|a - b| ≤ 1 / 100000000 + 1 / 100000 * |b|)

/-- Weight validation in `EnsembleForecaster.__init__`: if the total is not
`np.isclose` to 1, divide every weight by the total; otherwise keep the
configured weights unchanged. -/
def initWeights (w : WeightDict) : WeightDict :=
  let total := sumWeights w
  if npIsClose total 1 then w else w.map (fun p => (p.1, p.2 / total))

/-- The default component weights of `EnsembleForecaster.__init__`. -/
def defaultWeights : WeightDict :=
  [("futures_curve", 1 / 2), ("statistical", 3 / 10), ("mean_reversion", 1 / 5)]

/-- `EnsembleForecaster._get_horizon_adjusted_weights`: the stored weights
when horizon adaptation is off, otherwise one of three fixed buckets chosen
by the forecast horizon. -/
def get_horizon_adjusted_weights (adapt_weights : Bool) (selfWeights : WeightDict)
    (horizon_days : ℤ) : WeightDict :=
  if !adapt_weights then selfWeights
  else if horizon_days ≤ 30 then
    [("futures_curve", 3 / 5), ("statistical", 1 / 4), ("mean_reversion", 3 / 20)]
  else if horizon_days ≤ 90 then
    [("futures_curve", 9 / 20), ("statistical", 3 / 10), ("mean_reversion", 1 / 4)]
  else
    [("futures_curve", 3 / 10), ("statistical", 3 / 10), ("mean_reversion", 2 / 5)]

/-! ## Ensemble component fallbacks and combination (src/math/ensemble.py) -/

/-- `pd.Series(v, index=forecast_dates)`: a flat projection, as a function of
the day offset from the spot date. -/
def flatSeries (v : ℚ) : ℕ → ℚ := fun _ => v

/-- The outcomes of the fallible component computations inside
`EnsembleForecaster.forecast`, each already aligned to the forecast date
axis: `none` models "the computation raised an exception". -/
structure ComponentOutcomes where
  spline_result : Option (ℕ → ℚ)
  arima_result : Option (ℕ → ℚ)
  sma_result : Option (ℕ → ℚ)

/-- Step 1 of `EnsembleForecaster.forecast`: the futures-curve component is
the aligned spline curve, or a flat spot-price projection if the curve
build raised. -/
def futuresComponent (spot_price : ℚ) (o : ComponentOutcomes) : ℕ → ℚ :=
  match o.spline_result with
  | some s => s
  | none => flatSeries spot_price

/-- Step 2 of `EnsembleForecaster.forecast`: the statistical component is
the ARIMA forecast; if that raised, the moving-average forecast; if that
also raised, a flat spot-price projection. -/
def statisticalComponent (spot_price : ℚ) (o : ComponentOutcomes) : ℕ → ℚ :=
  match o.arima_result with
  | some s => s
  | none =>
    match o.sma_result with
    | some s => s
    | none => flatSeries spot_price

/-- The `component_forecasts` dict built by `EnsembleForecaster.forecast`
(mean reversion never fails). -/
def componentForecasts (spot_price : ℚ) (o : ComponentOutcomes) (mean_rev : ℕ → ℚ) :
    List (String × (ℕ → ℚ)) :=
  [("futures_curve", futuresComponent spot_price o),
   ("statistical", statisticalComponent spot_price o),
   ("mean_reversion", mean_rev)]

/-- Dict lookup among the component forecasts. -/
def lookupComponent (k : String) : List (String × (ℕ → ℚ)) → Option (ℕ → ℚ)
  | [] => none
  | p :: rest => if p.1 = k then some p.2 else lookupComponent k rest

/-- Step 4 of `EnsembleForecaster.forecast`: start from the zero series and
add `weight * component` for every weight entry whose key is present among
the component forecasts. -/
def combineWeighted (weights : WeightDict) (comps : List (String × (ℕ → ℚ))) : ℕ → ℚ :=
  fun t =>
    (weights.map (fun kw =>
      match lookupComponent kw.1 comps with
      | some c => kw.2 * c t
      | none => 0)).sum

/-- The fields of `EnsembleForecastResult` relevant to the point forecast. -/
structure EnsembleForecastResultQ where
  point_forecast : ℕ → ℚ
  component_weights : WeightDict
  component_forecasts : List (String × (ℕ → ℚ))

/-- `historical_prices.iloc[-1]`: the last entry of a series, raising
`IndexError` on an empty series (the pandas message for a positional
indexer past the end). -/
def ilocLast (l : List ℚ) : Except String ℚ :=
  match l.getLast? with
  | some v => .ok v
  | none => .error "IndexError: single positional indexer is out-of-bounds"

/-- `EnsembleForecaster.forecast`: resolve every component through its
fallback chain (steps 1-3), select the horizon weights and combine
(step 4), then estimate volatility for the confidence bands (step 5).
Step 5 runs outside every try/except and accesses
`historical_prices.iloc[-1]` inside `_estimate_volatility`, so on an empty
historical series `forecast` raises `IndexError` and returns no result,
even after all component fallbacks fired. -/
def ensembleForecast (spot_price : ℚ) (adapt_weights : Bool) (selfWeights : WeightDict)
    (horizon_days : ℤ) (o : ComponentOutcomes) (mean_rev : ℕ → ℚ)
    (historical_prices : List ℚ) : Except String EnsembleForecastResultQ :=
  let comps := componentForecasts spot_price o mean_rev
  let weights := get_horizon_adjusted_weights adapt_weights selfWeights horizon_days
  let combined := combineWeighted weights comps
  match ilocLast historical_prices with
  | .error e => .error e
  | .ok _ =>
    .ok { point_forecast := combined
          component_weights := weights
          component_forecasts := comps }

/-! ## Maximum smoothness spline (src/math/spline.py) -/

/-- `ContractBlock`: a settlement period (inclusive integer day numbers) and
its flat price. -/
structure ContractBlock where
  start_date : ℤ
  end_date : ℤ
  price : ℚ
deriving DecidableEq

/-- `SplineBounds` with the source defaults. -/
structure SplineBounds where
  min_price : ℚ := 800
  max_price : ℚ := 2500
  max_daily_change : ℚ := 50

/-- Insertion step of a stable sort by `start_date`. -/
def insertByStart (c : ContractBlock) : List ContractBlock → List ContractBlock
  | [] => [c]
  | d :: ds => if c.start_date < d.start_date then c :: d :: ds else d :: insertByStart c ds

/-- `sorted(contracts, key=lambda x: x.start_date)`. -/
def sortByStart (cs : List ContractBlock) : List ContractBlock :=
  cs.foldr insertByStart []

/-- The discrete second differences `x[:-2] - 2*x[1:-1] + x[2:]`. -/
def secondDiffs : List ℚ → List ℚ
  | a :: b :: c :: rest => (a - 2 * b + c) :: secondDiffs (b :: c :: rest)
  | _ => []

/-- The curvature objective `sum(diff2 ** 2)` of `build_curve`. -/
def objectiveCurvature (x : List ℚ) : ℚ :=
  ((secondDiffs x).map (fun d => d ^ 2)).sum

/-- The residual of one block-average equality constraint:
`np.mean(x[s_idx : e_idx + 1]) - target_price`. -/
def sliceMeanConstraint (s_idx e_idx : ℕ) (target : ℚ) : List ℚ → ℚ :=
  fun x => meanQ ((x.drop s_idx).take (e_idx + 1 - s_idx)) - target

/-- Constraint B construction of `build_curve` for one contract: skip a
contract lying entirely out of range, clip a partially overlapping one. -/
def contractConstraint (spot_date : ℤ) (days_total : ℤ) (c : ContractBlock) :
    Option (List ℚ → ℚ) :=
  let start_idx := c.start_date - spot_date
  let end_idx := c.end_date - spot_date
  if end_idx < 0 ∨ days_total ≤ start_idx then none
  else
    let s := max start_idx 0
    let e := min end_idx (days_total - 1)
    some (sliceMeanConstraint s.toNat e.toNat c.price)

/-- The optimization problem handed to `scipy.optimize.minimize`. -/
structure OptProblem where
  days_total : ℤ
  objective : List ℚ → ℚ
  x0 : List ℚ
  eq_constraints : List (List ℚ → ℚ)
  price_bounds : List (ℚ × ℚ)

/-- Timeline and constraint setup of `build_curve` (steps 1-5), for a
non-empty contract list. -/
def buildProblem (spot_date : ℤ) (spot_price : ℚ) (bounds : SplineBounds)
    (contracts : List ContractBlock) : OptProblem :=
  let sorted := sortByStart contracts
  let max_end := ((sorted.map ContractBlock.end_date).max?).getD spot_date
  let max_date := min max_end (spot_date + 400)
  let days_total := max_date - spot_date + 1
  { days_total := days_total
    objective := objectiveCurvature
    x0 := List.replicate days_total.toNat spot_price
    eq_constraints :=
      (fun x => x.headD 0 - spot_price) ::
        sorted.filterMap (contractConstraint spot_date days_total)
    price_bounds := List.replicate days_total.toNat (bounds.min_price, bounds.max_price) }

/-- The outcome of `scipy.optimize.minimize`: success flag, message, and the
solution vector. -/
structure SolverResult where
  success : Bool
  message : String
  x : List ℚ

/-- `MaximumSmoothnessSpline.build_curve`, with the external SLSQP solver as
an oracle parameter: empty contracts yield an empty series; a successful
solve yields the daily curve; an unsuccessful solve raises
`ValueError("Spline optimization failed: ...")`, modelled as `Except.error`. -/
def build_curve (spot_date : ℤ) (spot_price : ℚ) (bounds : SplineBounds)
    (solver : OptProblem → SolverResult) (contracts : List ContractBlock) :
    Except String (List (ℤ × ℚ)) :=
  if contracts.isEmpty then .ok []
  else
    let prob := buildProblem spot_date spot_price bounds contracts
    let result := solver prob
    if result.success then
      .ok ((((List.range prob.days_total.toNat).map (fun i => spot_date + (i : ℤ)))).zip result.x)
    else
      .error ("Spline optimization failed: " ++ result.message)

/-! ## Mean reversion model (src/math/forecast.py) -/

/-- The mean-reversion speed `theta = np.log(2) / half_life_days`. -/
noncomputable def meanReversionTheta (half_life_days : ℝ) : ℝ :=
  Real.log 2 / half_life_days

/-- `MeanReversionModel.forecast`: the closed-form Ornstein-Uhlenbeck
relaxation `mu + (P0 - mu) * exp(-theta * t)` sampled at `t = 1..horizon`
(the list entry at position `i` is day `t = i + 1`). -/
noncomputable def meanReversionForecast (long_term_mean half_life_days current_price : ℝ)
    (horizon_days : ℕ) : List ℝ :=
  (List.range horizon_days).map (fun i : ℕ =>
    long_term_mean + (current_price - long_term_mean) *
      Real.exp (-(meanReversionTheta half_life_days) * ((i : ℝ) + 1)))

/-! ## Confidence bands and pandas label alignment (src/math/ensemble.py)

`EnsembleForecaster.forecast` computes `combined - 1.645 * volatility` and
friends, where `combined` carries the forecast date index while
`_estimate_volatility` returns `pd.Series(vol_curve)` carrying a fresh
integer `RangeIndex`. Pandas arithmetic aligns on index labels, so the two
label universes must be modelled as distinct. -/

/-- A pandas index label: either a date of the forecast axis (as a day
offset from the spot date) or a plain integer position of a `RangeIndex`. -/
inductive PIdx where
  | dateIdx : ℕ → PIdx
  | intIdx : ℕ → PIdx
deriving DecidableEq

/-- A pandas Series over `PIdx` labels with real values (non-missing
entries only). -/
abbrev RSeries := List (PIdx × ℝ)

/-- Label lookup in a real-valued series. -/
def lookupPIdx (i : PIdx) (s : RSeries) : Option ℝ :=
  (s.find? (fun p => p.1 == i)).map Prod.snd

/-- The index labels of a series. -/
def seriesKeys (s : RSeries) : List PIdx := s.map Prod.fst

/-- The union index of two series, first series' labels first. -/
def unionKeys (s t : RSeries) : List PIdx :=
  seriesKeys s ++ (seriesKeys t).filter (fun i => !((seriesKeys s).contains i))

/-- Pointwise combination with NaN propagation: the cell is missing unless
both operands carry the label. -/
def combineOpt (f : ℝ → ℝ → ℝ) : Option ℝ → Option ℝ → Option ℝ
  | some a, some b => some (f a b)
  | _, _ => none

/-- Pandas binary arithmetic between two Series: align on the union of the
index labels; the result is NaN (`none`) at any label absent from either
operand. -/
def alignBin (f : ℝ → ℝ → ℝ) (s t : RSeries) : List (PIdx × Option ℝ) :=
  (unionKeys s t).map (fun i => (i, combineOpt f (lookupPIdx i s) (lookupPIdx i t)))

/-- Scalar multiplication of a Series (keeps the index). -/
noncomputable def scalarMul (c : ℝ) (s : RSeries) : RSeries :=
  s.map (fun p => (p.1, c * p.2))

/-- `Series.pct_change().dropna()` on consecutive positional values. -/
noncomputable def pctChange : List ℝ → List ℝ
  | [] => []
  | [_] => []
  | x :: y :: rest => (y - x) / x :: pctChange (y :: rest)

/-- `np.mean` of a list of reals. -/
noncomputable def meanR (l : List ℝ) : ℝ := l.sum / l.length

/-- `Series.std()`: sample standard deviation (ddof = 1). -/
noncomputable def sampleStd (l : List ℝ) : ℝ :=
  Real.sqrt ((l.map (fun x => (x - meanR l) ^ 2)).sum / ((l.length : ℝ) - 1))

/-- `EnsembleForecaster._estimate_volatility`: daily-return volatility
scaled by `sqrt(day)` times the last price, capped at 30% of the last
price. Faithful detail: the returned `pd.Series(vol_curve)` carries a fresh
integer `RangeIndex 0..n-1`, not the forecast date index. -/
noncomputable def estimate_volatility (historical_prices : List ℝ) (horizon_days : ℕ) : RSeries :=
  let returns := pctChange historical_prices
  let daily_vol := sampleStd returns
  let last := historical_prices.getLastD 0
  (List.range horizon_days).map (fun t =>
    (PIdx.intIdx t, min (daily_vol * Real.sqrt ((t : ℝ) + 1) * last) (3 / 10 * last)))

/-- The combined point forecast of `EnsembleForecaster.forecast`, which
carries the forecast date index (day offsets from the spot date). -/
def combinedSeries (pointValue : ℕ → ℝ) (horizon_days : ℕ) : RSeries :=
  (List.range horizon_days).map (fun t => (PIdx.dateIdx t, pointValue t))

/-- `lower_90 = combined - 1.645 * volatility`. -/
noncomputable def lower_bound_90 (combined vol : RSeries) : List (PIdx × Option ℝ) :=
  alignBin (fun a b => a - b) combined (scalarMul 1.645 vol)

/-- `upper_90 = combined + 1.645 * volatility`. -/
noncomputable def upper_bound_90 (combined vol : RSeries) : List (PIdx × Option ℝ) :=
  alignBin (fun a b => a + b) combined (scalarMul 1.645 vol)

/-- `lower_50 = combined - 0.674 * volatility`. -/
noncomputable def lower_bound_50 (combined vol : RSeries) : List (PIdx × Option ℝ) :=
  alignBin (fun a b => a - b) combined (scalarMul 0.674 vol)

/-- `upper_50 = combined + 0.674 * volatility`. -/
noncomputable def upper_bound_50 (combined vol : RSeries) : List (PIdx × Option ℝ) :=
  alignBin (fun a b => a + b) combined (scalarMul 0.674 vol)

/-! ## Theorems -/

/-- C10: `calculate_forecast_skill_score` never divides by zero: it returns
NaN (`none`) when the naive MAPE is zero, and `1 - model_mape / naive_mape`
otherwise. -/
theorem skill_score_zero_guard (model_mape naive_mape : ℚ) :
    (naive_mape = 0 → calculate_forecast_skill_score model_mape naive_mape = none) ∧
    (naive_mape ≠ 0 →
      calculate_forecast_skill_score model_mape naive_mape = some (1 - model_mape / naive_mape)) := by
  constructor <;> intro h <;> simp [calculate_forecast_skill_score, h]

theorem skill_score_zero_guard_witness :
    calculate_forecast_skill_score 5 0 = none ∧
      calculate_forecast_skill_score 5 10 = some (1 - 5 / 10) :=
  ⟨(skill_score_zero_guard 5 0).1 rfl, (skill_score_zero_guard 5 10).2 (by norm_num)⟩

/-- C3: with horizon-adaptive mode enabled, the ensemble weights depend only
on the horizon bucket: horizons up to 30 days use
{futures_curve 0.60, statistical 0.25, mean_reversion 0.15}, horizons in
(30, 90] use {0.45, 0.30, 0.25}, and horizons above 90 use
{0.30, 0.30, 0.40}, independently of the stored weights. -/
theorem horizon_adaptive_weight_buckets (base : WeightDict) (h : ℤ) :
    (h ≤ 30 → get_horizon_adjusted_weights true base h =
      [("futures_curve", 3 / 5), ("statistical", 1 / 4), ("mean_reversion", 3 / 20)]) ∧
    (30 < h → h ≤ 90 → get_horizon_adjusted_weights true base h =
      [("futures_curve", 9 / 20), ("statistical", 3 / 10), ("mean_reversion", 1 / 4)]) ∧
    (90 < h → get_horizon_adjusted_weights true base h =
      [("futures_curve", 3 / 10), ("statistical", 3 / 10), ("mean_reversion", 2 / 5)]) := by
  refine ⟨fun h30 => ?_, fun h30 h90 => ?_, fun h90 => ?_⟩
  · simp [get_horizon_adjusted_weights, h30]
  · have : ¬ h ≤ 30 := not_le.mpr h30
    simp [get_horizon_adjusted_weights, this, h90]
  · have h1 : ¬ h ≤ 30 := not_le.mpr (by omega)
    have h2 : ¬ h ≤ 90 := not_le.mpr h90
    simp [get_horizon_adjusted_weights, h1, h2]

theorem horizon_adaptive_weight_buckets_witness :
    get_horizon_adjusted_weights true defaultWeights 15 =
      [("futures_curve", 3 / 5), ("statistical", 1 / 4), ("mean_reversion", 3 / 20)] ∧
    get_horizon_adjusted_weights true defaultWeights 200 =
      [("futures_curve", 3 / 10), ("statistical", 3 / 10), ("mean_reversion", 2 / 5)] :=
  ⟨(horizon_adaptive_weight_buckets defaultWeights 15).1 (by norm_num),
   (horizon_adaptive_weight_buckets defaultWeights 200).2.2 (by norm_num)⟩

/-- C7: on an empty non-missing index intersection, `calculate_mape`,
`calculate_rmse` and `calculate_bias` all return NaN (`none`), without
raising; on a non-empty intersection, MAPE equals
`mean(|actual - predicted| / actual) * 100` over the intersection. -/
theorem accuracy_metrics_nan_on_empty_overlap (p a : QSeries) :
    (alignPairs p a = [] →
      calculate_mape p a = none ∧ calculate_rmse p a = none ∧ calculate_bias p a = none) ∧
    (alignPairs p a ≠ [] →
      calculate_mape p a =
        some (meanQ ((alignPairs p a).map (fun x => |(x.2.2 - x.2.1) / x.2.2|)) * 100)) := by
  constructor
  · intro he
    refine ⟨?_, ?_, ?_⟩ <;> simp [calculate_mape, calculate_rmse, calculate_bias, he]
  · intro hne
    simp [calculate_mape, List.isEmpty_iff, hne]

theorem accuracy_metrics_nan_on_empty_overlap_witness :
    (calculate_mape [((0 : ℕ), (1 : ℚ))] [] = none ∧
      calculate_rmse [((0 : ℕ), (1 : ℚ))] [] = none ∧
      calculate_bias [((0 : ℕ), (1 : ℚ))] [] = none) ∧
    calculate_mape [((0 : ℕ), (2 : ℚ))] [((0 : ℕ), (1 : ℚ))] = some 100 := by
  refine ⟨(accuracy_metrics_nan_on_empty_overlap _ _).1 rfl, ?_⟩
  have h := (accuracy_metrics_nan_on_empty_overlap [((0 : ℕ), (2 : ℚ))] [((0 : ℕ), (1 : ℚ))]).2
    (by decide)
  rw [h]
  norm_num [alignPairs, lookupLabel, meanQ, List.find?, List.filterMap_cons]

/-- C6 counterexample: on predictions 1,2 and actuals 5,7 (one aligned
first difference, signs matching), `calculate_directional_accuracy` returns
100 — the percentage — not the sign-match fraction 1, and not a value in
[0, 1] as the claim states. -/
theorem directional_accuracy_fraction_counterexample :
    calculate_directional_accuracy [((0 : ℕ), (1 : ℚ)), (1, 2)] [((0 : ℕ), (5 : ℚ)), (1, 7)] =
        some 100 ∧
      ¬ ((100 : ℚ) ≤ 1) := by
  refine ⟨?_, by norm_num⟩
  norm_num [calculate_directional_accuracy, dirAligned, alignPairs, seriesDiff, lookupLabel,
    List.find?, List.filterMap_cons, npSign, List.countP_cons, List.countP_nil]

/-- C6 (amended): `calculate_directional_accuracy` returns the percentage —
the sign-match fraction multiplied by 100, a value in [0, 100] — of
day-over-day sign matches between the predicted and actual first
differences over their aligned intersection, and NaN (`none`) when no
overlapping differences exist. -/
theorem directional_accuracy_percentage (p a : QSeries) :
    (dirAligned p a = [] → calculate_directional_accuracy p a = none) ∧
    (dirAligned p a ≠ [] →
      calculate_directional_accuracy p a =
        some ((((dirAligned p a).countP (fun x => npSign x.2.1 == npSign x.2.2) : ℚ) /
          (dirAligned p a).length) * 100) ∧
      ∀ r, calculate_directional_accuracy p a = some r → 0 ≤ r ∧ r ≤ 100) := by
  constructor
  · intro he
    simp [calculate_directional_accuracy, he]
  · intro hne
    have heq : calculate_directional_accuracy p a =
        some ((((dirAligned p a).countP (fun x => npSign x.2.1 == npSign x.2.2) : ℚ) /
          (dirAligned p a).length) * 100) := by
      simp [calculate_directional_accuracy, List.isEmpty_iff, hne]
    refine ⟨heq, fun r hr => ?_⟩
    rw [heq] at hr
    obtain rfl : _ = r := Option.some.inj hr
    have hn : (0 : ℚ) < (dirAligned p a).length := by
      exact_mod_cast List.length_pos.mpr hne
    have hc : (((dirAligned p a).countP (fun x => npSign x.2.1 == npSign x.2.2) : ℕ) : ℚ) ≤
        ((dirAligned p a).length : ℚ) :=
      Nat.cast_le.mpr (List.countP_le_length _)
    constructor
    · positivity
    · have h1 : (((dirAligned p a).countP (fun x => npSign x.2.1 == npSign x.2.2) : ℕ) : ℚ) /
          (dirAligned p a).length ≤ 1 := (div_le_one hn).mpr hc
      calc (((dirAligned p a).countP (fun x => npSign x.2.1 == npSign x.2.2) : ℕ) : ℚ) /
            (dirAligned p a).length * 100 ≤ 1 * 100 :=
        mul_le_mul_of_nonneg_right h1 (by norm_num)
      _ = 100 := by norm_num

theorem directional_accuracy_percentage_witness :
    calculate_directional_accuracy [((0 : ℕ), (1 : ℚ)), (1, 2)] [((0 : ℕ), (3 : ℚ)), (1, 1)] =
        some 0 ∧
      calculate_directional_accuracy [((0 : ℕ), (1 : ℚ))] [((0 : ℕ), (5 : ℚ))] = none := by
  constructor
  · have h := ((directional_accuracy_percentage [((0 : ℕ), (1 : ℚ)), (1, 2)]
      [((0 : ℕ), (3 : ℚ)), (1, 1)]).2 (by decide)).1
    rw [h]
    norm_num [dirAligned, alignPairs, seriesDiff, lookupLabel, List.find?, List.filterMap_cons,
      npSign, List.countP_cons, List.countP_nil]
  · exact (directional_accuracy_percentage _ _).1 rfl

/-- Summing a weight dict whose values were all divided by `c`. -/
theorem sumWeights_map_div (w : WeightDict) (c : ℚ) :
    sumWeights (w.map (fun p => (p.1, p.2 / c))) = sumWeights w / c := by
  induction w with
  | nil => simp [sumWeights]
  | cons x xs ih =>
    simp only [List.map_cons, sumWeights, List.sum_cons] at ih ⊢
    rw [ih, add_div]

/-- C8 counterexample: configured weights {0.5, 0.500001} have positive
total 1.000001, which is within `np.isclose` tolerance of 1, so the
constructor keeps them unnormalized and the weights actually used by the
ensemble sum to 1.000001, not 1.0. -/
theorem ensemble_weights_close_total_counterexample :
    0 < sumWeights [("futures_curve", (1 : ℚ) / 2), ("statistical", 500001 / 1000000)] ∧
      sumWeights (get_horizon_adjusted_weights false
        (initWeights [("futures_curve", (1 : ℚ) / 2), ("statistical", 500001 / 1000000)])
        365) ≠ 1 := by
  constructor
  · norm_num [sumWeights]
  · have habs : |(1 : ℚ) / 1000000| = 1 / 1000000 := abs_of_pos (by norm_num)
    norm_num [sumWeights, initWeights, npIsClose, get_horizon_adjusted_weights, habs]

/-- C8 (amended): for every configured weight dict with positive total, the
constructor renormalizes to an exact sum of 1 whenever the total is not
within `np.isclose` tolerance of 1; when the total is already within
tolerance the weights are kept unchanged, so the used weights sum to 1 only
up to the `np.isclose` tolerance `1e-8 + 1e-5`; every horizon-adaptive
weight bucket sums to exactly 1. -/
theorem ensemble_weights_sum_spec (w : WeightDict) (hpos : 0 < sumWeights w) :
    |sumWeights (initWeights w) - 1| ≤ 1 / 100000000 + 1 / 100000 ∧
    (npIsClose (sumWeights w) 1 = false → sumWeights (initWeights w) = 1) ∧
    (∀ base : WeightDict, ∀ h : ℤ,
      sumWeights (get_horizon_adjusted_weights true base h) = 1) := by
  have hne : sumWeights w ≠ 0 := ne_of_gt hpos
  have hbuckets : ∀ base : WeightDict, ∀ h : ℤ,
      sumWeights (get_horizon_adjusted_weights true base h) = 1 := by
    intro base h
    rw [get_horizon_adjusted_weights, if_neg (by simp)]
    split_ifs <;> norm_num [sumWeights]
  cases hc : npIsClose (sumWeights w) 1 with
  | true =>
    have hiw : initWeights w = w := by simp [initWeights, hc]
    have hb : |sumWeights w - 1| ≤ 1 / 100000000 + 1 / 100000 * |(1 : ℚ)| := by
      have h2 := hc
      simp only [npIsClose, decide_eq_true_eq] at h2
      exact h2
    refine ⟨?_, ?_, hbuckets⟩
    · rw [hiw]
      simpa using hb
    · intro hfalse
      simp at hfalse
  | false =>
    have hiw : sumWeights (initWeights w) = 1 := by
      rw [initWeights]
      simp only [hc, Bool.false_eq_true, if_false]
      rw [sumWeights_map_div, div_self hne]
    refine ⟨?_, fun _ => hiw, hbuckets⟩
    rw [hiw]
    norm_num

theorem ensemble_weights_sum_spec_witness :
    0 < sumWeights [("futures_curve", (2 : ℚ)), ("statistical", 1), ("mean_reversion", 1)] ∧
      sumWeights (initWeights
        [("futures_curve", (2 : ℚ)), ("statistical", 1), ("mean_reversion", 1)]) = 1 ∧
      sumWeights (get_horizon_adjusted_weights true defaultWeights 45) = 1 := by
  have hpos : 0 < sumWeights
      [("futures_curve", (2 : ℚ)), ("statistical", 1), ("mean_reversion", 1)] := by
    norm_num [sumWeights]
  have h := ensemble_weights_sum_spec
    [("futures_curve", (2 : ℚ)), ("statistical", 1), ("mean_reversion", 1)] hpos
  refine ⟨hpos, h.2.1 ?_, h.2.2 defaultWeights 45⟩
  norm_num [npIsClose, sumWeights]

/-- C5: if the nonlinear solver inside `build_curve` reports failure on a
non-empty contract set, `build_curve` raises the distinct error
`"Spline optimization failed: ..."` and returns no curve at all (in
particular it does not return the empty-data result used for an empty
contract list). -/
theorem build_curve_nonconvergence_raises (spot_date : ℤ) (spot_price : ℚ)
    (bounds : SplineBounds) (solver : OptProblem → SolverResult)
    (contracts : List ContractBlock) (hne : contracts ≠ [])
    (hfail : (solver (buildProblem spot_date spot_price bounds contracts)).success = false) :
    build_curve spot_date spot_price bounds solver contracts =
      Except.error ("Spline optimization failed: " ++
        (solver (buildProblem spot_date spot_price bounds contracts)).message) := by
  unfold build_curve
  rw [if_neg (by simpa [List.isEmpty_iff] using hne)]
  simp only [hfail, Bool.false_eq_true, if_false]

theorem build_curve_nonconvergence_witness :
    build_curve 0 1000 {} (fun _ => ⟨false, "Iteration limit reached", []⟩)
        [⟨31, 59, 1050⟩] =
      Except.error ("Spline optimization failed: " ++ "Iteration limit reached") :=
  build_curve_nonconvergence_raises 0 1000 {} (fun _ => ⟨false, "Iteration limit reached", []⟩)
    [⟨31, 59, 1050⟩] (by simp) rfl

/-- C4 counterexample: with an empty historical price series every
statistical fit raises (and is caught, so the statistical component falls
back to the flat spot projection) and the curve build fails too, yet
`forecast` does not return an `EnsembleForecastResult`: the unguarded
`historical_prices.iloc[-1]` inside `_estimate_volatility` (step 5, after
the weighted combination) raises `IndexError`, which propagates to the
caller. -/
theorem ensemble_forecast_raises_counterexample :
    ensembleForecast 1000 true defaultWeights 30 ⟨none, none, none⟩ (flatSeries 1100) [] =
      Except.error "IndexError: single positional indexer is out-of-bounds" := rfl

/-- C4 (amended): provided the historical price series is non-empty,
`EnsembleForecaster.forecast` never propagates component failures: a
failed curve build leaves a flat spot-price futures component; a failed
autoregressive fit falls back to the moving average, and if that also
fails, to a flat spot-price statistical component; and `forecast` returns
an `EnsembleForecastResult` whose point forecast is the weighted
combination of the component forecasts. With an empty historical series
`forecast` instead raises `IndexError` from the unguarded
`historical_prices.iloc[-1]` in `_estimate_volatility`. -/
theorem ensemble_component_fallbacks (spot : ℚ) (adapt : Bool) (bw : WeightDict) (h : ℤ)
    (o : ComponentOutcomes) (mr : ℕ → ℚ) (hist : List ℚ) (hne : hist ≠ []) :
    ensembleForecast spot adapt bw h o mr hist =
      Except.ok
        { point_forecast := combineWeighted (get_horizon_adjusted_weights adapt bw h)
            (componentForecasts spot o mr)
          component_weights := get_horizon_adjusted_weights adapt bw h
          component_forecasts := componentForecasts spot o mr } ∧
    (o.spline_result = none →
      lookupComponent "futures_curve" (componentForecasts spot o mr) =
        some (flatSeries spot)) ∧
    (o.arima_result = none → o.sma_result = none →
      lookupComponent "statistical" (componentForecasts spot o mr) =
        some (flatSeries spot)) ∧
    (∀ s, o.arima_result = none → o.sma_result = some s →
      lookupComponent "statistical" (componentForecasts spot o mr) = some s) := by
  have hv : ∃ v, ilocLast hist = Except.ok v := by
    cases hist with
    | nil => exact absurd rfl hne
    | cons a as =>
      cases hlast : (a :: as).getLast? with
      | none => simp at hlast
      | some v => exact ⟨v, by simp [ilocLast, hlast]⟩
  obtain ⟨v, hv⟩ := hv
  refine ⟨?_, fun h1 => ?_, fun h1 h2 => ?_, fun s h1 h2 => ?_⟩
  · simp [ensembleForecast, hv]
  · simp [componentForecasts, lookupComponent, futuresComponent, h1]
  · simp [componentForecasts, lookupComponent, statisticalComponent, h1, h2]
  · simp [componentForecasts, lookupComponent, statisticalComponent, h1, h2]

theorem ensemble_component_fallbacks_witness :
    ensembleForecast 1000 true defaultWeights 30 ⟨none, none, none⟩ (flatSeries 1100)
        [1000, 1010, 1005] =
      Except.ok
        { point_forecast := combineWeighted (get_horizon_adjusted_weights true defaultWeights 30)
            (componentForecasts 1000 ⟨none, none, none⟩ (flatSeries 1100))
          component_weights := get_horizon_adjusted_weights true defaultWeights 30
          component_forecasts := componentForecasts 1000 ⟨none, none, none⟩ (flatSeries 1100) } ∧
      lookupComponent "futures_curve"
          (componentForecasts 1000 ⟨none, none, none⟩ (flatSeries 1100)) =
        some (flatSeries 1000) ∧
      lookupComponent "statistical"
          (componentForecasts 1000 ⟨none, none, none⟩ (flatSeries 1100)) =
        some (flatSeries 1000) := by
  have h := ensemble_component_fallbacks 1000 true defaultWeights 30 ⟨none, none, none⟩
    (flatSeries 1100) [1000, 1010, 1005] (by simp)
  exact ⟨h.1, h.2.1 rfl, h.2.2.1 rfl rfl⟩

/-- C9: `MeanReversionModel.forecast` is the closed-form series
`forecast[t] = mu + (P0 - mu) * exp(-(ln 2 / H) * t)` for `t = 1..n`:
its length is exactly `n` and the entry at position `t - 1` is the
closed-form value at day `t`, for every current price, mean, positive
half-life and horizon — no fitting step, never a failure. -/
theorem mean_reversion_closed_form (mu H P0 : ℝ) (n t : ℕ) (hH : 0 < H) (hn : 1 ≤ n)
    (ht1 : 1 ≤ t) (htn : t ≤ n) :
    (meanReversionForecast mu H P0 n).length = n ∧
    (meanReversionForecast mu H P0 n).get? (t - 1) =
      some (mu + (P0 - mu) * Real.exp (-(Real.log 2 / H) * (t : ℝ))) := by
  constructor
  · simp [meanReversionForecast]
  · have hlt : t - 1 < n := by omega
    have harg : ((t - 1 : ℕ) : ℝ) + 1 = (t : ℝ) := by
      rw [Nat.cast_sub ht1, Nat.cast_one]
      ring
    rw [meanReversionForecast, List.get?_map, List.get?_range hlt]
    simp only [Option.map_some']
    rw [meanReversionTheta, harg]

theorem mean_reversion_closed_form_witness :
    (0 : ℝ) < 180 ∧ (meanReversionForecast 1100 180 1000 5).length = 5 ∧
      (meanReversionForecast 1100 180 1000 5).get? 1 =
        some (1100 + (1000 - 1100) * Real.exp (-(Real.log 2 / 180) * (2 : ℝ))) := by
  have h := mean_reversion_closed_form 1100 180 1000 5 2 (by norm_num) (by norm_num)
    (by norm_num) (by norm_num)
  exact ⟨by norm_num, h.1, by simpa using h.2⟩

/-- NaN propagation: a pandas binary operation is missing wherever the
second operand misses the label. -/
theorem combineOpt_none_right (f : ℝ → ℝ → ℝ) (o : Option ℝ) : combineOpt f o none = none := by
  cases o <;> rfl

/-- The volatility series of `_estimate_volatility` (even after scalar
multiplication) carries only integer `RangeIndex` labels, so every date
label misses it. -/
theorem lookupPIdx_scalarMul_vol (c : ℝ) (hist : List ℝ) (n t : ℕ) :
    lookupPIdx (PIdx.dateIdx t) (scalarMul c (estimate_volatility hist n)) = none := by
  unfold lookupPIdx
  suffices h : List.find? (fun p => p.1 == PIdx.dateIdx t)
      (scalarMul c (estimate_volatility hist n)) = none by
    rw [h]
    rfl
  rw [List.find?_eq_none]
  intro x hx
  unfold scalarMul estimate_volatility at hx
  simp only [List.map_map, List.mem_map, List.mem_range] at hx
  obtain ⟨k, hk, rfl⟩ := hx
  simp

/-- Every forecast date label is present in the combined forecast's index. -/
theorem dateIdx_mem_combined_keys (pv : ℕ → ℝ) (n t : ℕ) (ht : t < n) :
    PIdx.dateIdx t ∈ seriesKeys (combinedSeries pv n) := by
  unfold seriesKeys combinedSeries
  simp only [List.map_map, List.mem_map, List.mem_range]
  exact ⟨t, ht, rfl⟩

/-- Pandas alignment of the date-indexed combined forecast against the
integer-indexed volatility series: at every forecast date label the result
is present but NaN. -/
theorem alignBin_vol_all_none (f : ℝ → ℝ → ℝ) (c : ℝ) (pv : ℕ → ℝ) (hist : List ℝ)
    (n t : ℕ) (ht : t < n) :
    (PIdx.dateIdx t, (none : Option ℝ)) ∈
        alignBin f (combinedSeries pv n) (scalarMul c (estimate_volatility hist n)) ∧
      ∀ v, (PIdx.dateIdx t, v) ∈
          alignBin f (combinedSeries pv n) (scalarMul c (estimate_volatility hist n)) →
        v = none := by
  have hvol := lookupPIdx_scalarMul_vol c hist n t
  have hval : combineOpt f (lookupPIdx (PIdx.dateIdx t) (combinedSeries pv n))
      (lookupPIdx (PIdx.dateIdx t) (scalarMul c (estimate_volatility hist n))) = none := by
    rw [hvol]
    exact combineOpt_none_right f _
  constructor
  · unfold alignBin
    refine List.mem_map.mpr ⟨PIdx.dateIdx t, ?_, by rw [hval]⟩
    unfold unionKeys
    exact List.mem_append_left _ (dateIdx_mem_combined_keys pv n t ht)
  · intro v hv
    unfold alignBin at hv
    obtain ⟨i, hi, heq⟩ := List.mem_map.mp hv
    have h1 : i = PIdx.dateIdx t := congrArg Prod.fst heq
    have h2 : combineOpt f (lookupPIdx i (combinedSeries pv n))
        (lookupPIdx i (scalarMul c (estimate_volatility hist n))) = v := congrArg Prod.snd heq
    subst h1
    rw [← h2]
    exact hval

/-- C2 (code evaluation): because `_estimate_volatility` returns a series
on a fresh integer `RangeIndex` while the combined point forecast is
date-indexed, pandas label alignment makes each of the four confidence
bounds NaN (`none`) at every date of the forecast horizon, so no day can
satisfy the claimed ordering of the bands around the point forecast. -/
theorem confidence_bands_nan_at_every_horizon_date (pv : ℕ → ℝ) (hist : List ℝ) (n t : ℕ)
    (ht : t < n) :
    ((PIdx.dateIdx t, (none : Option ℝ)) ∈
        lower_bound_90 (combinedSeries pv n) (estimate_volatility hist n) ∧
      ∀ v, (PIdx.dateIdx t, v) ∈
          lower_bound_90 (combinedSeries pv n) (estimate_volatility hist n) → v = none) ∧
    ((PIdx.dateIdx t, (none : Option ℝ)) ∈
        upper_bound_90 (combinedSeries pv n) (estimate_volatility hist n) ∧
      ∀ v, (PIdx.dateIdx t, v) ∈
          upper_bound_90 (combinedSeries pv n) (estimate_volatility hist n) → v = none) ∧
    ((PIdx.dateIdx t, (none : Option ℝ)) ∈
        lower_bound_50 (combinedSeries pv n) (estimate_volatility hist n) ∧
      ∀ v, (PIdx.dateIdx t, v) ∈
          lower_bound_50 (combinedSeries pv n) (estimate_volatility hist n) → v = none) ∧
    ((PIdx.dateIdx t, (none : Option ℝ)) ∈
        upper_bound_50 (combinedSeries pv n) (estimate_volatility hist n) ∧
      ∀ v, (PIdx.dateIdx t, v) ∈
          upper_bound_50 (combinedSeries pv n) (estimate_volatility hist n) → v = none) :=
  ⟨alignBin_vol_all_none (fun a b => a - b) 1.645 pv hist n t ht,
   alignBin_vol_all_none (fun a b => a + b) 1.645 pv hist n t ht,
   alignBin_vol_all_none (fun a b => a - b) 0.674 pv hist n t ht,
   alignBin_vol_all_none (fun a b => a + b) 0.674 pv hist n t ht⟩

theorem confidence_bands_nan_witness :
    ((PIdx.dateIdx 0, (none : Option ℝ)) ∈
        lower_bound_90 (combinedSeries (fun _ => 1000) 2)
          (estimate_volatility [1000, 1010, 1005] 2) ∧
      ∀ v, (PIdx.dateIdx 0, v) ∈
          lower_bound_90 (combinedSeries (fun _ => 1000) 2)
            (estimate_volatility [1000, 1010, 1005] 2) → v = none) ∧
    ((PIdx.dateIdx 0, (none : Option ℝ)) ∈
        upper_bound_90 (combinedSeries (fun _ => 1000) 2)
          (estimate_volatility [1000, 1010, 1005] 2) ∧
      ∀ v, (PIdx.dateIdx 0, v) ∈
          upper_bound_90 (combinedSeries (fun _ => 1000) 2)
            (estimate_volatility [1000, 1010, 1005] 2) → v = none) ∧
    ((PIdx.dateIdx 0, (none : Option ℝ)) ∈
        lower_bound_50 (combinedSeries (fun _ => 1000) 2)
          (estimate_volatility [1000, 1010, 1005] 2) ∧
      ∀ v, (PIdx.dateIdx 0, v) ∈
          lower_bound_50 (combinedSeries (fun _ => 1000) 2)
            (estimate_volatility [1000, 1010, 1005] 2) → v = none) ∧
    ((PIdx.dateIdx 0, (none : Option ℝ)) ∈
        upper_bound_50 (combinedSeries (fun _ => 1000) 2)
          (estimate_volatility [1000, 1010, 1005] 2) ∧
      ∀ v, (PIdx.dateIdx 0, v) ∈
          upper_bound_50 (combinedSeries (fun _ => 1000) 2)
            (estimate_volatility [1000, 1010, 1005] 2) → v = none) :=
  confidence_bands_nan_at_every_horizon_date (fun _ => 1000) [1000, 1010, 1005] 2 0
    (by norm_num)
